import Mathlib

/-!
# Verification of the p2p presence/registration server (`src/server.rs`)

Shallow embedding of the server core: the connection registry (a
`HashMap<SocketAddr, Connection>` behind a mutex), the command
parser/dispatcher (`handle_incoming_buffer`), the registration handler
(`handle_socket_registration`) and the per-connection session loop
(`process_socket`).

Modelling conventions:
* `SocketAddr` is modelled as `Nat` (an opaque identity; the code only
  compares addresses for equality and uses them as map keys).
* The `HashMap` is modelled as an association list with `containsKey`,
  `values`, `insert` (replace-on-existing-key) and `lookup` mirroring the
  `HashMap` operations the source uses.
* Byte-stream writes (`send_response` / `send_error_response`) are modelled
  as the list of newline-terminated strings written to this connection's
  socket, in order.  `send_error_response(s, e)` writes `"ERR " ++ e ++ "\n"`,
  `send_response(s, "OK", true)` writes `"OK\n"`.
* The `println!` join/leave lines are modelled as `LifecycleEvent`s.
* Rust panics (`unwrap` / `expect`) are modelled by a `panic` constructor
  carrying the panic message: a panic aborts the connection's task, so the
  session loop performs no further reads, writes or cleanup.
-/

/-- The transport-level identity of a connection (`std::net::SocketAddr`),
modelled as an opaque natural number: the source only compares addresses
for equality and uses them as `HashMap` keys. -/
abbrev SocketAddr := Nat

/-- `struct Connection { socket, addr, nickname }` from `server.rs`.
The `socket: Arc<Mutex<TcpStream>>` output handle is not a value we can
embed; writes through it are modelled as the response traces returned by
the operations below, so the record keeps the two data fields. -/
structure Connection where
  addr : SocketAddr
  nickname : String
deriving Repr, DecidableEq

/-- `const CONNECTION_BUFFER_SIZE: usize = 1024;` -/
def CONNECTION_BUFFER_SIZE : Nat := 1024

/-- The shared registry `HashMap<SocketAddr, Connection>`, modelled as an
association list. -/
abbrev Registry := List (SocketAddr × Connection)

/-- `HashMap::contains_key` on the modelled registry. -/
def Registry.containsKey (m : Registry) (a : SocketAddr) : Bool :=
  match m with
  | [] => false
  | (k, _) :: rest => k == a || Registry.containsKey rest a

/-- `HashMap::values` on the modelled registry. -/
def Registry.values (m : Registry) : List Connection :=
  m.map (fun p => p.2)

/-- `HashMap::insert` on the modelled registry: replaces the binding if the
key is present, otherwise appends a new binding. -/
def Registry.insert (m : Registry) (a : SocketAddr) (c : Connection) : Registry :=
  match m with
  | [] => [(a, c)]
  | (k, v) :: rest =>
    if k == a then (a, c) :: rest else (k, v) :: Registry.insert rest a c

/-- `HashMap::get` on the modelled registry. -/
def Registry.lookup (m : Registry) (a : SocketAddr) : Option Connection :=
  match m with
  | [] => none
  | (k, c) :: rest => if k == a then some c else Registry.lookup rest a

/-- `get_connection_by_addr(addr, connections)`: locks the registry and
looks the address up (`connections.lock().await.get(&addr)`). -/
def get_connection_by_addr (addr : SocketAddr) (connections : Registry) :
    Option Connection :=
  Registry.lookup connections addr

/-- The join/leave `println!` lines of `server.rs`, as lifecycle events
(the colouring is presentation only). -/
inductive LifecycleEvent where
  | joined (nickname : String)
  | left (nickname : String)
deriving Repr, DecidableEq

/-- Result of one registry-mutating handler call: the registry afterwards,
the responses written to this connection's socket (newline included, in
order), and the lifecycle events printed. -/
structure RegResult where
  registry : Registry
  responses : List String
  events : List LifecycleEvent
deriving Repr, DecidableEq

/-- `handle_socket_registration(socket, addr, connections, nickname)` from
`server.rs` (sequential semantics: the whole call runs without
interference; the lock-by-lock interleaving semantics is `regStep` below):
1. if `connections.lock().await.contains_key(&addr)` then respond
   `ERR ALR_REG`;
2. else if some existing record has this exact nickname then respond
   `ERR TKN`;
3. else insert `Connection { socket, addr, nickname }`, respond `OK` and
   print the "Joined" line. -/
def handle_socket_registration (addr : SocketAddr) (connections : Registry)
    (nickname : String) : RegResult :=
  if Registry.containsKey connections addr then
    ⟨connections, ["ERR ALR_REG\n"], []⟩
  else if (Registry.values connections).any (fun c => c.nickname == nickname) then
    ⟨connections, ["ERR TKN\n"], []⟩
  else
    ⟨Registry.insert connections addr ⟨addr, nickname⟩, ["OK\n"],
      [LifecycleEvent.joined nickname]⟩

/-- A UTF-8 continuation byte (`0x80 ..= 0xBF`). -/
def isUtf8Cont (b : Nat) : Bool :=
  decide (128 ≤ b ∧ b ≤ 191)

/-- Valid (first, second) byte pair of a 3-byte UTF-8 sequence, ruling out
overlong encodings (`E0 A0..`) and surrogates (`ED 80..9F`). -/
def utf8Valid3 (b0 b1 : Nat) : Bool :=
  (b0 == 224 && decide (160 ≤ b1 ∧ b1 ≤ 191)) ||
  (decide (225 ≤ b0 ∧ b0 ≤ 236) && isUtf8Cont b1) ||
  (b0 == 237 && decide (128 ≤ b1 ∧ b1 ≤ 159)) ||
  (decide (238 ≤ b0 ∧ b0 ≤ 239) && isUtf8Cont b1)

/-- Valid (first, second) byte pair of a 4-byte UTF-8 sequence, ruling out
overlong encodings (`F0 90..`) and code points above `U+10FFFF` (`F4 80..8F`). -/
def utf8Valid4 (b0 b1 : Nat) : Bool :=
  (b0 == 240 && decide (144 ≤ b1 ∧ b1 ≤ 191)) ||
  (decide (241 ≤ b0 ∧ b0 ≤ 243) && isUtf8Cont b1) ||
  (b0 == 244 && decide (128 ≤ b1 ∧ b1 ≤ 143))

/-- UTF-8 decoding of a byte list, as performed by Rust's
`String::from_utf8`: `none` exactly when the bytes are not valid UTF-8
(invalid leading byte, truncated sequence, bad continuation byte, overlong
form, surrogate, or code point above `U+10FFFF`). -/
def utf8Decode : List Nat → Option (List Char)
  | [] => some []
  | b0 :: rest =>
    if b0 ≤ 127 then
      (utf8Decode rest).map (fun cs => Char.ofNat b0 :: cs)
    else if decide (194 ≤ b0 ∧ b0 ≤ 223) then
      match rest with
      | b1 :: rest2 =>
        if isUtf8Cont b1 then
          (utf8Decode rest2).map
            (fun cs => Char.ofNat ((b0 - 192) * 64 + (b1 - 128)) :: cs)
        else none
      | [] => none
    else if decide (224 ≤ b0 ∧ b0 ≤ 239) then
      match rest with
      | b1 :: b2 :: rest3 =>
        if utf8Valid3 b0 b1 && isUtf8Cont b2 then
          (utf8Decode rest3).map
            (fun cs =>
              Char.ofNat ((b0 - 224) * 4096 + (b1 - 128) * 64 + (b2 - 128)) :: cs)
        else none
      | _ => none
    else if decide (240 ≤ b0 ∧ b0 ≤ 244) then
      match rest with
      | b1 :: b2 :: b3 :: rest4 =>
        if utf8Valid4 b0 b1 && isUtf8Cont b2 && isUtf8Cont b3 then
          (utf8Decode rest4).map
            (fun cs =>
              Char.ofNat ((b0 - 240) * 262144 + (b1 - 128) * 4096 +
                (b2 - 128) * 64 + (b3 - 128)) :: cs)
        else none
      | _ => none
    else none

/-- Rust's `char::is_whitespace` (the Unicode `White_Space` property),
which `str::split_whitespace` splits on. -/
def isRustWhitespace (c : Char) : Bool :=
  decide (c.toNat = 9 ∨ c.toNat = 10 ∨ c.toNat = 11 ∨ c.toNat = 12 ∨
    c.toNat = 13 ∨ c.toNat = 32 ∨ c.toNat = 133 ∨ c.toNat = 160 ∨
    c.toNat = 5760 ∨ (8192 ≤ c.toNat ∧ c.toNat ≤ 8202) ∨ c.toNat = 8232 ∨
    c.toNat = 8233 ∨ c.toNat = 8239 ∨ c.toNat = 8287 ∨ c.toNat = 12288)

/-- Worker for `split_whitespace`: walks the characters accumulating the
current token (reversed). -/
def splitWhitespaceAux : List Char → List Char → List String
  | [], acc => if acc.isEmpty then [] else [String.mk acc.reverse]
  | c :: cs, acc =>
    if isRustWhitespace c then
      if acc.isEmpty then splitWhitespaceAux cs []
      else String.mk acc.reverse :: splitWhitespaceAux cs []
    else splitWhitespaceAux cs (c :: acc)

/-- Rust's `str::split_whitespace`: the maximal non-empty runs of
non-whitespace characters, in order. -/
def split_whitespace (s : List Char) : List String :=
  splitWhitespaceAux s []

/-- Outcome of `handle_incoming_buffer`: either the new registry with the
responses written and events printed, or a Rust panic (which aborts the
connection's task). -/
inductive BufferOutcome where
  | ok (registry : Registry) (responses : List String) (events : List LifecycleEvent)
  | panic (msg : String)
deriving Repr, DecidableEq

/-- The token-dispatch part of `handle_incoming_buffer` (`server.rs`
lines 107-134), on the whitespace-split tokens of the decoded chunk:
* zero tokens (`data_splitted.clone().count() < 1`) → respond `ERR NIL_CMD`;
* first token `"REG"`: the next token is taken with
  `.expect("NIL_NICK")`, which PANICS when there is no argument; otherwise
  `handle_socket_registration` runs with that token as the nickname
  (any further tokens are never read from the iterator);
* any other first token → respond `ERR UNK_CMD`. -/
def dispatch (addr : SocketAddr) (connections : Registry)
    (tokens : List String) : BufferOutcome :=
  match tokens with
  | [] => BufferOutcome.ok connections ["ERR NIL_CMD\n"] []
  | command :: args =>
    if command == "REG" then
      match args with
      | [] => BufferOutcome.panic "NIL_NICK"
      | nickname :: _ =>
        let r := handle_socket_registration addr connections nickname
        BufferOutcome.ok r.registry r.responses r.events
    else
      BufferOutcome.ok connections ["ERR UNK_CMD\n"] []

/-- `handle_incoming_buffer(socket, addr, connections, data)` from
`server.rs`: `String::from_utf8(data.to_vec()).unwrap()` — a PANIC when
the chunk is not valid UTF-8 — then split on whitespace and dispatch. -/
def handle_incoming_buffer (addr : SocketAddr) (connections : Registry)
    (data : List Nat) : BufferOutcome :=
  match utf8Decode data with
  | none => BufferOutcome.panic "called `Result::unwrap()` on an `Err` value"
  | some chars => dispatch addr connections (split_whitespace chars)

/-- One result of `locked_socket.read(&mut buffer)` in the session loop:
`ok buffer n` is `Ok(n)` with `n ≥ 1` and `buffer` the buffer contents
after the read (the read contract guarantees `n ≤ buffer.len()`), `eos` is
`Ok(0)` (orderly close), `err` is `Err(_)`. -/
inductive ReadResult where
  | ok (buffer : List Nat) (n : Nat)
  | eos
  | err
deriving Repr, DecidableEq

/-- `buffer[..n].to_vec()`: the chunk the session loop hands to
`handle_incoming_buffer`. -/
def dataBuffer (buffer : List Nat) (n : Nat) : List Nat :=
  buffer.take n

/-- How a session loop invocation ended: `pending` (the read-event trace
ran out while the loop would still be reading), `closedEos` (`Ok(0)`
branch: `break`), `closedErr` (`Err(_)` branch: `break`), or `panicked`
(a panic inside `handle_incoming_buffer` aborted the task). -/
inductive SessionEnd where
  | pending
  | closedEos
  | closedErr
  | panicked (msg : String)
deriving Repr, DecidableEq

/-- Everything observable from one run of the session loop: the registry
afterwards, the responses written to this connection, the lifecycle
events printed, and how the loop ended. -/
structure SessionResult where
  registry : Registry
  responses : List String
  events : List LifecycleEvent
  ended : SessionEnd
deriving Repr, DecidableEq

/-- `process_socket(socket, addr, connections)` from `server.rs`, run over
a trace of read results:
* `Ok(0)`: call `get_connection_by_addr`; if a record exists print the
  "Left" line; in both cases `break`.  NOTE: the entry is never removed
  from the registry — the source has no `remove` call.
* `Ok(n)`: hand `buffer[..n].to_vec()` to `handle_incoming_buffer` and
  continue the loop; a panic inside the handler aborts the task (no
  cleanup, no further reads).
* `Err(_)`: `break` immediately (no lookup, no "Left" line, no removal). -/
def process_socket (addr : SocketAddr) :
    Registry → List ReadResult → SessionResult
  | conns, [] => ⟨conns, [], [], SessionEnd.pending⟩
  | conns, ReadResult.eos :: _ =>
    match get_connection_by_addr addr conns with
    | none => ⟨conns, [], [], SessionEnd.closedEos⟩
    | some c => ⟨conns, [], [LifecycleEvent.left c.nickname], SessionEnd.closedEos⟩
  | conns, ReadResult.err :: _ => ⟨conns, [], [], SessionEnd.closedErr⟩
  | conns, ReadResult.ok buffer n :: rest =>
    match handle_incoming_buffer addr conns (dataBuffer buffer n) with
    | BufferOutcome.panic m => ⟨conns, [], [], SessionEnd.panicked m⟩
    | BufferOutcome.ok r resp ev =>
      let k := process_socket addr r rest
      ⟨k.registry, resp ++ k.responses, ev ++ k.events, k.ended⟩

/-!
## Lock-level interleaving semantics of `handle_socket_registration`

The source takes and releases the registry mutex three separate times
(three distinct `connections.lock().await` blocks): once for the
`contains_key` check, once for the nickname scan, once for the `insert`.
Between those blocks other tasks may acquire the lock.  We model one
registration attempt as a program counter over those three atomic
sections, and a concurrent execution of two attempts as an interleaving
(schedule) of their atomic sections.
-/

/-- Program counter of an in-flight `handle_socket_registration` call: one
position per `connections.lock().await` block, plus the finished state
carrying the response that the call writes. -/
inductive RegPC where
  | checkId
  | checkNick
  | doInsert
  | done (response : String)
deriving Repr, DecidableEq

/-- One in-flight registration attempt: its connection's address, the
requested nickname, and its program counter. -/
structure RegSession where
  addr : SocketAddr
  nickname : String
  pc : RegPC
deriving Repr, DecidableEq

/-- One atomic (single lock acquisition) section of
`handle_socket_registration`, exactly as the source performs it:
`checkId` runs the `contains_key` block, `checkNick` the nickname-scan
block, `doInsert` the `insert` block.  A finished session is inert. -/
def regStep (conns : Registry) (s : RegSession) : Registry × RegSession :=
  match s.pc with
  | RegPC.checkId =>
    if Registry.containsKey conns s.addr then
      (conns, { s with pc := RegPC.done "ERR ALR_REG\n" })
    else
      (conns, { s with pc := RegPC.checkNick })
  | RegPC.checkNick =>
    if (Registry.values conns).any (fun c => c.nickname == s.nickname) then
      (conns, { s with pc := RegPC.done "ERR TKN\n" })
    else
      (conns, { s with pc := RegPC.doInsert })
  | RegPC.doInsert =>
    (Registry.insert conns s.addr ⟨s.addr, s.nickname⟩,
      { s with pc := RegPC.done "OK\n" })
  | RegPC.done _ => (conns, s)

/-- Run two concurrent registration attempts under a schedule: `false`
steps session 0, `true` steps session 1.  Each schedule entry executes one
atomic lock-protected section of that session. -/
def runSchedule : List Bool → Registry → RegSession → RegSession →
    Registry × RegSession × RegSession
  | [], conns, s0, s1 => (conns, s0, s1)
  | false :: sched, conns, s0, s1 =>
    let p := regStep conns s0
    runSchedule sched p.1 p.2 s1
  | true :: sched, conns, s0, s1 =>
    let p := regStep conns s1
    runSchedule sched p.1 s0 p.2

/-- Run one registration attempt's three atomic sections back to back with
no interference (the sequential execution of the call). -/
def runAlone (conns : Registry) (s : RegSession) : Registry × RegSession :=
  let p1 := regStep conns s
  let p2 := regStep p1.1 p1.2
  regStep p2.1 p2.2

/-- The response a finished session wrote, if it is finished. -/
def pcResponse : RegPC → Option String
  | RegPC.done r => some r
  | _ => none

/-- The nicknames of the live records, in registry order (the lists whose
uniqueness invariant I2 of the spec is about). -/
def nicknames (m : Registry) : List String :=
  (Registry.values m).map Connection.nickname

/-!
## Helper lemmas
-/

/-- Inserting a fresh key appends the binding at the end. -/
theorem insert_of_containsKey_false (m : Registry) (a : SocketAddr)
    (c : Connection) (h : Registry.containsKey m a = false) :
    Registry.insert m a c = m ++ [(a, c)] := by
  induction m with
  | nil => rfl
  | cons p rest ih =>
    obtain ⟨k, v⟩ := p
    simp only [Registry.containsKey, Bool.or_eq_false_iff] at h
    simp only [Registry.insert]
    rw [if_neg (by simp [h.1]), ih h.2]
    rfl

/-- If the nickname scan of `handle_socket_registration` finds no record
with nickname `n`, then `n` is not among the live nicknames. -/
theorem not_mem_nicknames_of_any_false (m : Registry) (n : String)
    (h : (Registry.values m).any (fun c => c.nickname == n) = false) :
    n ∉ nicknames m := by
  intro hmem
  rw [List.any_eq_false] at h
  obtain ⟨c, hc, hcn⟩ := List.mem_map.1 hmem
  exact h c hc (by simp [hcn])

/-- Any single call of `handle_socket_registration` preserves uniqueness of
the live nicknames: the two rejecting branches leave the registry as it
was, and the inserting branch only runs when the nickname scan found no
record with that nickname. -/
theorem registration_preserves_nickname_nodup (m : Registry)
    (a : SocketAddr) (nick : String) (hnd : (nicknames m).Nodup) :
    (nicknames (handle_socket_registration a m nick).registry).Nodup := by
  unfold handle_socket_registration
  by_cases h1 : Registry.containsKey m a
  · simp only [h1, if_true]
    exact hnd
  · rw [if_neg (by simp [h1])]
    by_cases h2 : (Registry.values m).any (fun c => c.nickname == nick)
    · simp only [h2, if_true]
      exact hnd
    · rw [if_neg (by simp [h2])]
      have hfresh : Registry.insert m a ⟨a, nick⟩ = m ++ [(a, ⟨a, nick⟩)] :=
        insert_of_containsKey_false m a ⟨a, nick⟩ (by simpa using h1)
    
      have hnotmem : nick ∉ nicknames m :=
        not_mem_nicknames_of_any_false m nick (by simpa using h2)
      simp only [hfresh]
      have : nicknames (m ++ [(a, Connection.mk a nick)]) =
          nicknames m ++ [nick] := by
        simp [nicknames, Registry.values]
      rw [this, ← List.concat_eq_append]
      exact List.Nodup.concat hnotmem hnd

/-- Running one registration attempt's three lock-protected sections back
to back with no interference agrees with the sequential
`handle_socket_registration`: the interleaving model `regStep` refines the
source function. -/
theorem runAlone_agrees_with_handle_socket_registration (conns : Registry)
    (a : SocketAddr) (n : String) :
    (runAlone conns ⟨a, n, RegPC.checkId⟩).1 =
      (handle_socket_registration a conns n).registry ∧
    (pcResponse (runAlone conns ⟨a, n, RegPC.checkId⟩).2.pc).toList =
      (handle_socket_registration a conns n).responses := by
  by_cases h1 : Registry.containsKey conns a
  · simp [runAlone, regStep, handle_socket_registration, h1, pcResponse]
  · by_cases h2 : (Registry.values conns).any (fun c => c.nickname == n)
    · simp [runAlone, regStep, handle_socket_registration, h1, h2, pcResponse]
    · simp [runAlone, regStep, handle_socket_registration, h1, h2, pcResponse]

/-!
## Claim theorems
-/

/-- C1: the claim states that after a registered connection's stream
signals end-of-stream, the session loop removes that connection's entry
from the Registry (subsequent lookups return nothing) and a "left" event
fires exactly once with the registered nickname.  What the code actually
does at such an input: connection `1` registers as `alice` (receiving
`OK\n` and a "joined" event), then its stream reaches end-of-stream; the
loop prints the "left" event exactly once with the right nickname, but the
registry still contains the entry afterwards — `server.rs` has no `remove`
call, so the lookup returns the record instead of nothing. -/
theorem eos_cleanup_leaves_entry_in_registry :
    process_socket 1 []
        [ReadResult.ok [82, 69, 71, 32, 97, 108, 105, 99, 101] 9,
          ReadResult.eos] =
      ⟨[(1, ⟨1, "alice"⟩)], ["OK\n"],
        [LifecycleEvent.joined "alice", LifecycleEvent.left "alice"],
        SessionEnd.closedEos⟩ ∧
    get_connection_by_addr 1
        (process_socket 1 []
          [ReadResult.ok [82, 69, 71, 32, 97, 108, 105, 99, 101] 9,
            ReadResult.eos]).registry = some ⟨1, "alice"⟩ := by
  constructor
  · rfl
  · rfl

/-- C2: the claim states that a chunk whose first token is `REG` with no
following token makes the dispatcher write `ERR NIL_NICK\n` and leaves the
connection running.  What the code actually does at the chunk `"REG"`
(bytes `[82, 69, 71]`): `data_splitted.clone().next().expect("NIL_NICK")`
PANICS with message `NIL_NICK`; no response is written and the panic
aborts the connection's task, so the session loop terminates (the
following end-of-stream is never even reached). -/
theorem reg_missing_nickname_panics :
    handle_incoming_buffer 1 [] [82, 69, 71] =
      BufferOutcome.panic "NIL_NICK" ∧
    process_socket 1 [] [ReadResult.ok [82, 69, 71] 3, ReadResult.eos] =
      ⟨[], [], [], SessionEnd.panicked "NIL_NICK"⟩ := by
  constructor
  · rfl
  · rfl

/-- C3: the claim states that the identity check, nickname check and
insert of a registration execute as one critical section, so two
concurrent registrations with the same nickname cannot both succeed and
duplicate nicknames are never observable.  The source however takes and
releases the registry mutex three separate times, and under the
interleaving (step both `contains_key` checks, then both nickname scans,
then both inserts — schedule `[0, 1, 0, 1, 0, 1]`) two connections
(addresses `1` and `2`) racing for nickname `nick` BOTH finish with
response `OK\n`, and the registry afterwards holds two live records with
the same nickname `nick`, violating uniqueness observably. -/
theorem concurrent_registration_race_duplicates_nickname :
    runSchedule [false, true, false, true, false, true] []
        ⟨1, "nick", RegPC.checkId⟩ ⟨2, "nick", RegPC.checkId⟩ =
      ([(1, ⟨1, "nick"⟩), (2, ⟨2, "nick"⟩)],
        ⟨1, "nick", RegPC.done "OK\n"⟩, ⟨2, "nick", RegPC.done "OK\n"⟩) ∧
    nicknames [(1, ⟨1, "nick"⟩), (2, ⟨2, "nick"⟩)] = ["nick", "nick"] ∧
    ¬ (nicknames [(1, ⟨1, "nick"⟩), (2, ⟨2, "nick"⟩)]).Nodup := by
  refine ⟨rfl, rfl, ?_⟩
  decide

/-- C4: the claim states that a failed read performs the same cleanup as
end-of-stream — registry entry removed, "left" event emitted.  What the
code actually does: after connection `1` registers as `alice`, a read
error makes the `Err(_)` arm `break` immediately: no "left" event is
printed, nothing is removed (the entry is still found by a lookup), and no
error is written to the client.  Only the absence of cleanup diverges from
the claim: the error is indeed not surfaced and only this loop ends. -/
theorem read_error_skips_cleanup :
    process_socket 1 []
        [ReadResult.ok [82, 69, 71, 32, 97, 108, 105, 99, 101] 9,
          ReadResult.err] =
      ⟨[(1, ⟨1, "alice"⟩)], ["OK\n"], [LifecycleEvent.joined "alice"],
        SessionEnd.closedErr⟩ ∧
    get_connection_by_addr 1
        (process_socket 1 []
          [ReadResult.ok [82, 69, 71, 32, 97, 108, 105, 99, 101] 9,
            ReadResult.err]).registry = some ⟨1, "alice"⟩ := by
  constructor
  · rfl
  · rfl

/-- C5: the claim states that a chunk that is not valid UTF-8 makes the
decoding step fail in a way that is fatal only to that read and is
propagated upward rather than aborting inside the decoder.  What the code
actually does at the chunk `[0xFF]`:
`String::from_utf8(data.to_vec()).unwrap()` PANICS at the decode site; the
panic aborts the connection's task, so the session never processes any
later read — here a following well-formed `REG alice` chunk is never
dispatched (no `OK\n`, no registration) and the loop ends in the panicked
state.  (The registry itself is untouched by the panic: it is the
"fatal only to that read, propagate upward" part that fails.) -/
theorem invalid_utf8_panic_kills_session :
    handle_incoming_buffer 1 [] [255] =
      BufferOutcome.panic "called `Result::unwrap()` on an `Err` value" ∧
    process_socket 1 []
        [ReadResult.ok [255] 1,
          ReadResult.ok [82, 69, 71, 32, 97, 108, 105, 99, 101] 9,
          ReadResult.eos] =
      ⟨[], [], [],
        SessionEnd.panicked "called `Result::unwrap()` on an `Err` value"⟩ := by
  constructor
  · rfl
  · rfl

/-- C6: whenever some live record already holds nickname `n` (exact,
case-sensitive match) and the attempting identity is not itself
registered, the registration is rejected with `ERR TKN\n` and the registry
is unchanged (no record inserted); moreover every call of
`handle_socket_registration` preserves uniqueness of the live nicknames. -/
theorem nickname_taken_rejected (conns : Registry) (addr : SocketAddr)
    (n : String)
    (htaken : (Registry.values conns).any (fun c => c.nickname == n) = true)
    (habs : Registry.containsKey conns addr = false) :
    handle_socket_registration addr conns n = ⟨conns, ["ERR TKN\n"], []⟩ ∧
    ∀ (m : Registry) (a : SocketAddr) (nick : String),
      (nicknames m).Nodup →
      (nicknames (handle_socket_registration a m nick).registry).Nodup := by
  constructor
  · unfold handle_socket_registration
    rw [if_neg (by simp [habs]), if_pos htaken]
  · intro m a nick hnd
    exact registration_preserves_nickname_nodup m a nick hnd

/-- Witness for C6 at a concrete input: connection `2` is registered as
`alice`; an unregistered connection `1` attempting `REG alice` receives
`ERR TKN\n` and the registry is unchanged. -/
theorem nickname_taken_rejected_witness :
    handle_socket_registration 1 [(2, ⟨2, "alice"⟩)] "alice" =
      ⟨[(2, ⟨2, "alice"⟩)], ["ERR TKN\n"], []⟩ ∧
    ∀ (m : Registry) (a : SocketAddr) (nick : String),
      (nicknames m).Nodup →
      (nicknames (handle_socket_registration a m nick).registry).Nodup :=
  nickname_taken_rejected [(2, ⟨2, "alice"⟩)] 1 "alice" (by decide) (by decide)

/-- C7: whenever the attempting identity is already present in the
registry, any further `REG` (with any nickname) is rejected with
`ERR ALR_REG\n` and the registry — in particular the existing record and
its original nickname — is completely unchanged. -/
theorem already_registered_rejected (conns : Registry) (addr : SocketAddr)
    (n : String) (h : Registry.containsKey conns addr = true) :
    handle_socket_registration addr conns n =
      ⟨conns, ["ERR ALR_REG\n"], []⟩ := by
  unfold handle_socket_registration
  rw [if_pos h]

/-- Witness for C7 at a concrete input: connection `1` registered as
`alice` sends `REG bob`; it receives `ERR ALR_REG\n` and the registry
keeps the original record. -/
theorem already_registered_rejected_witness :
    handle_socket_registration 1 [(1, ⟨1, "alice"⟩)] "bob" =
      ⟨[(1, ⟨1, "alice"⟩)], ["ERR ALR_REG\n"], []⟩ :=
  already_registered_rejected [(1, ⟨1, "alice"⟩)] 1 "bob" (by decide)

/-- C8: a chunk that decodes to text with zero whitespace-delimited tokens
(empty or whitespace-only) makes the dispatcher respond `ERR NIL_CMD\n`,
with the registry unchanged and no lifecycle event. -/
theorem empty_input_nil_cmd (addr : SocketAddr) (conns : Registry)
    (data : List Nat) (chars : List Char)
    (hdec : utf8Decode data = some chars)
    (htok : split_whitespace chars = []) :
    handle_incoming_buffer addr conns data =
      BufferOutcome.ok conns ["ERR NIL_CMD\n"] [] := by
  have hd : handle_incoming_buffer addr conns data =
      dispatch addr conns (split_whitespace chars) := by
    unfold handle_incoming_buffer
    rw [hdec]
  rw [hd, htok]
  rfl

/-- Witness for C8 at a concrete input: the chunk `" \t"` (a space and a
tab, bytes `[32, 9]`) yields `ERR NIL_CMD\n` and leaves the registry
unchanged. -/
theorem empty_input_nil_cmd_witness :
    handle_incoming_buffer 1 [(2, ⟨2, "alice"⟩)] [32, 9] =
      BufferOutcome.ok [(2, ⟨2, "alice"⟩)] ["ERR NIL_CMD\n"] [] :=
  empty_input_nil_cmd 1 [(2, ⟨2, "alice"⟩)] [32, 9]
    [Char.ofNat 32, Char.ofNat 9] (by rfl) (by rfl)

/-- C9: the session loop reads into a fixed buffer of
`CONNECTION_BUFFER_SIZE = 1024` bytes and hands `buffer[..n]` to the
dispatcher, so every chunk the dispatcher sees has at most 1024 bytes;
consequently any transmission longer than 1024 bytes necessarily arrives
as at least two read chunks; and the loop parses each chunk independently:
one `Ok(n)` read produces exactly one `handle_incoming_buffer` call whose
responses and events are emitted before the loop continues on the rest of
the trace, with no data carried over between chunks. -/
theorem chunk_length_bounded (buffer : List Nat) (n : Nat)
    (hbuf : buffer.length = CONNECTION_BUFFER_SIZE) :
    (dataBuffer buffer n).length ≤ CONNECTION_BUFFER_SIZE ∧
    (∀ (transmission : List Nat) (chunks : List (List Nat)),
      (∀ c ∈ chunks, c.length ≤ CONNECTION_BUFFER_SIZE) →
      chunks.flatten = transmission →
      CONNECTION_BUFFER_SIZE < transmission.length →
      2 ≤ chunks.length) ∧
    (∀ (conns r : Registry) (resp : List String) (ev : List LifecycleEvent)
        (addr : SocketAddr) (rest : List ReadResult),
      handle_incoming_buffer addr conns (dataBuffer buffer n) =
        BufferOutcome.ok r resp ev →
      process_socket addr conns (ReadResult.ok buffer n :: rest) =
        ⟨(process_socket addr r rest).registry,
          resp ++ (process_socket addr r rest).responses,
          ev ++ (process_socket addr r rest).events,
          (process_socket addr r rest).ended⟩) := by
  refine ⟨?_, ?_, ?_⟩
  · rw [dataBuffer, List.length_take, hbuf]
    exact Nat.min_le_right _ _
  · intro t chunks hall hjoin hlen
    subst hjoin
    rcases chunks with _ | ⟨c, _ | ⟨c2, cs⟩⟩
    · simp [CONNECTION_BUFFER_SIZE] at hlen
    · have hc := hall c (by simp)
      simp [CONNECTION_BUFFER_SIZE] at hlen hc
      omega
    · simp only [List.length_cons]
      omega
  · intro conns r resp ev addr rest h
    simp [process_socket, h]

/-- Witness for C9 at a concrete input: a full first read (`buffer` of
1024 zero bytes, `n = 3`). -/
theorem chunk_length_bounded_witness :
    (dataBuffer (List.replicate 1024 0) 3).length ≤ CONNECTION_BUFFER_SIZE ∧
    (∀ (transmission : List Nat) (chunks : List (List Nat)),
      (∀ c ∈ chunks, c.length ≤ CONNECTION_BUFFER_SIZE) →
      chunks.flatten = transmission →
      CONNECTION_BUFFER_SIZE < transmission.length →
      2 ≤ chunks.length) ∧
    (∀ (conns r : Registry) (resp : List String) (ev : List LifecycleEvent)
        (addr : SocketAddr) (rest : List ReadResult),
      handle_incoming_buffer addr conns (dataBuffer (List.replicate 1024 0) 3) =
        BufferOutcome.ok r resp ev →
      process_socket addr conns
          (ReadResult.ok (List.replicate 1024 0) 3 :: rest) =
        ⟨(process_socket addr r rest).registry,
          resp ++ (process_socket addr r rest).responses,
          ev ++ (process_socket addr r rest).events,
          (process_socket addr r rest).ended⟩) :=
  chunk_length_bounded (List.replicate 1024 0) 3
    (by rw [List.length_replicate, CONNECTION_BUFFER_SIZE])

/-- C10: a chunk whose tokens are `REG`, a nickname and further extra
tokens is handled exactly as if the extra tokens were absent: the
dispatcher's result equals the dispatch of `["REG", nickname]`, and when
the identity is unregistered and the nickname free, the connection is
registered under the first argument token and receives `OK\n`. -/
theorem reg_extra_args_ignored (addr : SocketAddr) (conns : Registry)
    (data : List Nat) (chars : List Char) (n : String) (rest : List String)
    (hdec : utf8Decode data = some chars)
    (htok : split_whitespace chars = "REG" :: n :: rest) :
    handle_incoming_buffer addr conns data = dispatch addr conns ["REG", n] ∧
    (Registry.containsKey conns addr = false →
      (Registry.values conns).any (fun c => c.nickname == n) = false →
      handle_incoming_buffer addr conns data =
        BufferOutcome.ok (Registry.insert conns addr ⟨addr, n⟩) ["OK\n"]
          [LifecycleEvent.joined n]) := by
  have hd : handle_incoming_buffer addr conns data =
      dispatch addr conns (split_whitespace chars) := by
    unfold handle_incoming_buffer
    rw [hdec]
  constructor
  · rw [hd, htok]
    rfl
  · intro h1 h2
    have hreg : handle_socket_registration addr conns n =
        ⟨Registry.insert conns addr ⟨addr, n⟩, ["OK\n"],
          [LifecycleEvent.joined n]⟩ := by
      unfold handle_socket_registration
      rw [if_neg (by simp [h1]), if_neg (by simp [h2])]
    rw [hd, htok]
    have hdisp : dispatch addr conns ("REG" :: n :: rest) =
        BufferOutcome.ok (handle_socket_registration addr conns n).registry
          (handle_socket_registration addr conns n).responses
          (handle_socket_registration addr conns n).events := rfl
    rw [hdisp, hreg]

/-- Witness for C10 at a concrete input: the chunk `"REG alice bob"` on an
empty registry registers connection `1` as `alice` and answers `OK\n`,
ignoring `bob`. -/
theorem reg_extra_args_ignored_witness :
    handle_incoming_buffer 1 []
        [82, 69, 71, 32, 97, 108, 105, 99, 101, 32, 98, 111, 98] =
      dispatch 1 [] ["REG", "alice"] ∧
    (Registry.containsKey [] 1 = false →
      (Registry.values []).any (fun c => c.nickname == "alice") = false →
      handle_incoming_buffer 1 []
          [82, 69, 71, 32, 97, 108, 105, 99, 101, 32, 98, 111, 98] =
        BufferOutcome.ok (Registry.insert [] 1 ⟨1, "alice"⟩) ["OK\n"]
          [LifecycleEvent.joined "alice"]) :=
  reg_extra_args_ignored 1 []
    [82, 69, 71, 32, 97, 108, 105, 99, 101, 32, 98, 111, 98]
    (String.data "REG alice bob") "alice" ["bob"] (by rfl) (by rfl)
